import Mathlib

set_option maxHeartbeats 1000000

/-!
Shallow embedding of the wire-protocol codec in `src/messages.rs` of the
torrenter repository: the peer-wire message codec (`parse` and the
`build_*` message builders), the handshake builder, and the UDP tracker
request builders.  Byte buffers are modelled as `List Nat` (each entry one
byte), machine integers as `Nat`/`Int` with explicit reductions modulo
`2^w` where the source truncates, and code paths that panic in Rust
(`unwrap` on `None`, out-of-range slice bounds, `ByteBuffer` reads past the
end of the buffer) return `none`.
-/

/-- Big-endian encoding of the low 16 bits of a natural number, as written
by `ByteBuffer::write_u16`. -/
def u16Bytes (n : Nat) : List Nat :=
  [n / 256 % 256, n % 256]

/-- Big-endian encoding of the low 32 bits of a natural number, as written
by `ByteBuffer::write_u32`. -/
def u32Bytes (n : Nat) : List Nat :=
  [n / 16777216 % 256, n / 65536 % 256, n / 256 % 256, n % 256]

/-- Big-endian encoding of the low 64 bits of a natural number, as written
by `ByteBuffer::write_u64`. -/
def u64Bytes (n : Nat) : List Nat :=
  [n / 72057594037927936 % 256, n / 281474976710656 % 256, n / 1099511627776 % 256,
   n / 4294967296 % 256, n / 16777216 % 256, n / 65536 % 256, n / 256 % 256, n % 256]

/-- Two's-complement big-endian encoding of an `i16`, as written by
`ByteBuffer::write_i16`. -/
def i16Bytes (n : Int) : List Nat :=
  u16Bytes (n % 65536).toNat

/-- Two's-complement big-endian encoding of an `i32`, as written by
`ByteBuffer::write_i32`. -/
def i32Bytes (n : Int) : List Nat :=
  u32Bytes (n % 4294967296).toNat

/-- Two's-complement big-endian encoding of an `i64`, as written by
`ByteBuffer::write_i64`. -/
def i64Bytes (n : Int) : List Nat :=
  u64Bytes (n % 18446744073709551616).toNat

/-- Big-endian read of a `u32` from the front of a byte list, as performed
by `ByteBuffer::read_u32`; `none` models the panic the Rust library raises
when fewer than 4 bytes remain. -/
def readU32 (l : List Nat) : Option Nat :=
  match l with
  | b0 :: b1 :: b2 :: b3 :: _ => some (b0 * 16777216 + b1 * 65536 + b2 * 256 + b3)
  | _ => none

/-- Big-endian read of a `u64` from the front of a byte list, as performed
by `ByteBuffer::read_u64`; `none` models the panic on a short buffer. -/
def readU64 (l : List Nat) : Option Nat :=
  match l with
  | b0 :: b1 :: b2 :: b3 :: b4 :: b5 :: b6 :: b7 :: _ =>
      some (b0 * 72057594037927936 + b1 * 281474976710656 + b2 * 1099511627776 +
            b3 * 4294967296 + b4 * 16777216 + b5 * 65536 + b6 * 256 + b7)
  | _ => none

/-- Embedding of `struct GenericPayload` from `messages.rs`: `index` and
`begin` are plain `u32` fields, the remaining four are `Option`s. -/
structure GenericPayload where
  index : Nat
  begin : Nat
  length : Option Nat
  piece_index : Option Nat
  block : Option (List Nat)
  bitfield : Option (List Nat)
  deriving DecidableEq

/-- Embedding of `struct Msg` from `messages.rs`. -/
structure Msg where
  size : Nat
  id : Nat
  payload : GenericPayload
  deriving DecidableEq

/-- Modelled from the spec: `PieceBlock` is declared in the queue module
(`crate::queue`), which is outside the codec source file; per spec §4.2 a
request carries `index`, `begin` and an optional `length`, each encoded as
a big-endian u32 (the source casts the fields with `as u32`). -/
structure PieceBlock where
  index : Nat
  begin : Nat
  length : Option Nat
  deriving DecidableEq

/-- Modelled from the spec: `Torrent` is declared in `utils::torrents`,
outside the codec source file; the announce builder uses its optional
20-byte `info_hash` and optional 64-bit `size` (spec §3, §4.4). -/
structure Torrent where
  info_hash : Option (List Nat)
  size : Option Nat
  deriving DecidableEq

/-- Embedding of `get_msg_id`: the byte at offset 4 when the frame is
longer than 4 bytes, otherwise 0. -/
def get_msg_id (msg : List Nat) : Nat :=
  if 4 < msg.length then msg.getD 4 0 else 0

/-- Embedding of the `payload_bytes` computation in `parse`: every byte
from offset 5 on when the frame is longer than 5 bytes, otherwise the
single placeholder byte `[0]`. -/
def payloadRegion (msg : List Nat) : List Nat :=
  if 5 < msg.length then msg.drop 5 else [0]

/-- Embedding of the first `match` in `parse`: for ids 6, 7, 8 and 9 it
slices `payload_bytes[8..]` into `rest` (panicking, hence `none`, when the
payload region is shorter than 8 bytes) and reads `index` and `begin` as
big-endian u32 from the front of the payload region; for every other id it
leaves `rest` empty and `index`/`begin` at 0. -/
def readIndexBegin (id : Nat) (payload_bytes : List Nat) :
    Option (List Nat × Nat × Nat) :=
  if id = 6 ∨ id = 7 ∨ id = 8 ∨ id = 9 then
    if payload_bytes.length < 8 then none
    else
      match readU32 payload_bytes, readU32 (payload_bytes.drop 4) with
      | some index, some begin => some (payload_bytes.drop 8, index, begin)
      | _, _ => none
  else
    some ([], 0, 0)

/-- Embedding of the second `match` in `parse`, which fills the payload
fields depending on `id`: ids 0-3 record `rest.len()`, id 4 reads
`piece_index` from `rest` (`none` when `rest` has fewer than 4 bytes,
modelling the `ByteBuffer` panic), id 5 stores the whole payload region as
the bitfield, ids 6 and 8 read `length` from `rest`, id 7 stores `rest` as
the block, and any other id leaves the optional fields unset. -/
def fillPayload (size id : Nat) (payload_bytes rest : List Nat)
    (index begin : Nat) : Option Msg :=
  if id = 0 ∨ id = 1 ∨ id = 2 ∨ id = 3 then
    some ⟨size, id, ⟨index, begin, some (rest.length % 4294967296), none, none, none⟩⟩
  else if id = 4 then
    (readU32 rest).map fun piece_index =>
      ⟨size, id, ⟨index, begin, none, some piece_index, none, none⟩⟩
  else if id = 5 then
    some ⟨size, id, ⟨index, begin, none, none, none, some payload_bytes⟩⟩
  else if id = 6 ∨ id = 8 then
    (readU32 rest).map fun len =>
      ⟨size, id, ⟨index, begin, some len, none, none, none⟩⟩
  else if id = 7 then
    some ⟨size, id, ⟨index, begin, none, none, some rest, none⟩⟩
  else
    some ⟨size, id, ⟨index, begin, none, none, none, none⟩⟩

/-- Embedding of `parse` from `messages.rs`: read the 4-byte big-endian
length into `size`, determine the id, extract the payload region, run the
id-dependent `rest`/`index`/`begin` extraction and fill the payload.
`none` models a panic of the Rust code. -/
def parse (msg : List Nat) : Option Msg :=
  match readU32 msg with
  | none => none
  | some size =>
    match readIndexBegin (get_msg_id msg) (payloadRegion msg) with
    | none => none
    | some (rest, index, begin) =>
        fillPayload size (get_msg_id msg) (payloadRegion msg) rest index begin

/-- Embedding of `build_peer_handshake`: `19`, the protocol string, 8
reserved zero bytes (`write_u64(0)`), the info hash and the peer id. -/
def build_peer_handshake (info_hash : List Nat) (peer_id : List Nat) : List Nat :=
  [19] ++ ("BitTorrent protocol".data.map Char.toNat) ++ u64Bytes 0 ++ info_hash ++ peer_id

/-- Embedding of `build_keep_alive`. -/
def build_keep_alive : List Nat :=
  u32Bytes 0

/-- Embedding of `build_choke`. -/
def build_choke : List Nat :=
  u32Bytes 1 ++ [0]

/-- Embedding of `build_unchoke`. -/
def build_unchoke : List Nat :=
  u32Bytes 1 ++ [1]

/-- Embedding of `build_interested`. -/
def build_interested : List Nat :=
  u32Bytes 1 ++ [2]

/-- Embedding of `build_not_interested`. -/
def build_not_interested : List Nat :=
  u32Bytes 1 ++ [3]

/-- Embedding of `build_have`. -/
def build_have (piece_index : Nat) : List Nat :=
  u32Bytes 5 ++ [4] ++ u32Bytes piece_index

/-- Embedding of `build_bitfield`: length prefix `bitfield.len() + 1`
(truncated to u32 by the `as u32` cast, which `u32Bytes` performs), id 5,
then the bitfield bytes verbatim. -/
def build_bitfield (bitfield : List Nat) : List Nat :=
  u32Bytes (bitfield.length + 1) ++ [5] ++ bitfield

/-- Embedding of `build_request`: `none` models the panic of
`payload.length.unwrap()` when the length is absent. -/
def build_request (payload : PieceBlock) : Option (List Nat) :=
  (payload.length).map fun len =>
    u32Bytes 13 ++ [6] ++ u32Bytes payload.index ++ u32Bytes payload.begin ++ u32Bytes len

/-- Embedding of `build_piece`: `none` models the panic of
`payload.block.unwrap()` when the block is absent. -/
def build_piece (payload : GenericPayload) : Option (List Nat) :=
  (payload.block).map fun blk =>
    u32Bytes (9 + blk.length) ++ [7] ++ u32Bytes payload.index ++
      u32Bytes payload.begin ++ blk

/-- Embedding of `build_cancel`: an absent `length` is replaced by 0
(`unwrap_or(0)`), so this builder never fails. -/
def build_cancel (payload : GenericPayload) : List Nat :=
  u32Bytes 13 ++ [8] ++ u32Bytes payload.index ++ u32Bytes payload.begin ++
    u32Bytes (payload.length.getD 0)

/-- Embedding of `build_port`. -/
def build_port (port : Nat) : List Nat :=
  u32Bytes 3 ++ [9] ++ u16Bytes port

/-- Embedding of `build_conn_req`: the random transaction id drawn from
`rand::thread_rng` is injected as an explicit parameter (spec §5). -/
def build_conn_req (transaction_id : Int) : List Nat :=
  i64Bytes 0x41727101980 ++ i32Bytes 0 ++ i32Bytes transaction_id

/-- Embedding of `build_announce_req`: `none` models the panics of
`torrent.info_hash.unwrap()` and `torrent.size.unwrap()` when either field
is absent; the random transaction id is injected as a parameter (spec §5).
-/
def build_announce_req (torrent : Torrent) (connection_id : Int)
    (peer_id : List Nat) (port : Int) (transaction_id : Int) : Option (List Nat) :=
  match torrent.info_hash, torrent.size with
  | some info_hash, some size =>
      some (i64Bytes connection_id ++ i32Bytes 1 ++ i32Bytes transaction_id ++
        info_hash ++ peer_id ++ i64Bytes 0 ++ u64Bytes size ++ i64Bytes 0 ++
        i32Bytes 0 ++ i32Bytes 0 ++ i32Bytes 0 ++ i32Bytes (-1) ++ i16Bytes port)
  | _, _ => none


/-! Helper lemmas about the byte-level primitives. -/

/-- Unfolding of `u32Bytes` under an append. -/
theorem u32Bytes_cons (n : Nat) (t : List Nat) :
    u32Bytes n ++ t =
      n / 16777216 % 256 :: n / 65536 % 256 :: n / 256 % 256 :: n % 256 :: t := rfl

/-- Reading back a written u32 recovers the value modulo `2^32`. -/
theorem readU32_u32Bytes_append (n : Nat) (t : List Nat) :
    readU32 (u32Bytes n ++ t) = some (n % 4294967296) := by
  show some (n / 16777216 % 256 * 16777216 + n / 65536 % 256 * 65536 +
    n / 256 % 256 * 256 + n % 256) = some (n % 4294967296)
  congr 1
  omega

/-- Reading back a written u32 with nothing following it. -/
theorem readU32_u32Bytes (n : Nat) :
    readU32 (u32Bytes n) = some (n % 4294967296) := by
  have h := readU32_u32Bytes_append n []
  rwa [List.append_nil] at h

/-- Reading back a written u64 recovers the value modulo `2^64`. -/
theorem readU64_u64Bytes_append (n : Nat) (t : List Nat) :
    readU64 (u64Bytes n ++ t) = some (n % 18446744073709551616) := by
  show some (n / 72057594037927936 % 256 * 72057594037927936 +
    n / 281474976710656 % 256 * 281474976710656 + n / 1099511627776 % 256 * 1099511627776 +
    n / 4294967296 % 256 * 4294967296 + n / 16777216 % 256 * 16777216 +
    n / 65536 % 256 * 65536 + n / 256 % 256 * 256 + n % 256) =
    some (n % 18446744073709551616)
  congr 1
  omega

/-- A `readU32` succeeds exactly on lists of length at least 4. -/
theorem readU32_isSome_iff (l : List Nat) : (readU32 l).isSome ↔ 4 ≤ l.length := by
  rcases l with _ | ⟨a, _ | ⟨b, _ | ⟨c, _ | ⟨d, t⟩⟩⟩⟩ <;> simp [readU32]

/-- Existence form of `readU32_isSome_iff`. -/
theorem readU32_eq_some_of_le (l : List Nat) (h : 4 ≤ l.length) :
    ∃ s, readU32 l = some s :=
  Option.isSome_iff_exists.mp ((readU32_isSome_iff l).mpr h)

/-! Helper lemmas about the frame-level components of `parse`. -/

/-- Length of the payload region. -/
theorem payloadRegion_length (msg : List Nat) :
    (payloadRegion msg).length = if 5 < msg.length then msg.length - 5 else 1 := by
  unfold payloadRegion
  split_ifs <;> simp

/-- Frames of at most 5 bytes get the placeholder payload. -/
theorem payloadRegion_of_le (msg : List Nat) (h : msg.length ≤ 5) :
    payloadRegion msg = [0] := by
  unfold payloadRegion
  rw [if_neg (by omega)]

/-- The id of a frame `u32Bytes sz ++ id :: payload` is its fifth byte. -/
theorem get_msg_id_frame (sz id : Nat) (payload : List Nat) :
    get_msg_id (u32Bytes sz ++ id :: payload) = id := by
  unfold get_msg_id u32Bytes
  rw [if_pos (by simp)]
  rfl

/-- The payload region of a frame with a nonempty payload is that payload. -/
theorem payloadRegion_frame (sz id : Nat) (payload : List Nat) (h : payload ≠ []) :
    payloadRegion (u32Bytes sz ++ id :: payload) = payload := by
  rcases payload with _ | ⟨x, t⟩
  · exact absurd rfl h
  · unfold payloadRegion u32Bytes
    rw [if_pos (by simp)]
    rfl

/-- The size field of a frame is its first four bytes, big-endian. -/
theorem readU32_frame (sz id : Nat) (payload : List Nat) :
    readU32 (u32Bytes sz ++ id :: payload) = some (sz % 4294967296) :=
  readU32_u32Bytes_append sz (id :: payload)

/-- For ids outside 6-9 the first `match` of `parse` is a no-op. -/
theorem readIndexBegin_not_mem (id : Nat) (pb : List Nat)
    (h : ¬(id = 6 ∨ id = 7 ∨ id = 8 ∨ id = 9)) :
    readIndexBegin id pb = some ([], 0, 0) := by
  unfold readIndexBegin
  rw [if_neg h]

/-- For ids 6-9 with a payload region shorter than 8 bytes, the slice
`payload_bytes[8..]` panics. -/
theorem readIndexBegin_short (id : Nat) (pb : List Nat)
    (hmem : id = 6 ∨ id = 7 ∨ id = 8 ∨ id = 9) (h : pb.length < 8) :
    readIndexBegin id pb = none := by
  unfold readIndexBegin
  rw [if_pos hmem, if_pos h]

/-- For ids 6-9 on a payload that starts with two written u32 values, the
first `match` of `parse` recovers them modulo `2^32` and keeps the tail. -/
theorem readIndexBegin_two_u32 (id i b : Nat) (t : List Nat)
    (hmem : id = 6 ∨ id = 7 ∨ id = 8 ∨ id = 9) :
    readIndexBegin id (u32Bytes i ++ (u32Bytes b ++ t)) =
      some (t, i % 4294967296, b % 4294967296) := by
  unfold readIndexBegin
  rw [if_pos hmem, if_neg (by simp [u32Bytes]),
    show (u32Bytes i ++ (u32Bytes b ++ t)).drop 4 = u32Bytes b ++ t from rfl,
    show (u32Bytes i ++ (u32Bytes b ++ t)).drop 8 = t from rfl,
    readU32_u32Bytes_append, readU32_u32Bytes_append]

/-- Unfolding `parse` on a frame with a nonempty payload region whose
first `match` succeeds. -/
theorem parse_frame_some (sz id : Nat) (payload rest : List Nat) (i b : Nat)
    (h : payload ≠ []) (hrib : readIndexBegin id payload = some (rest, i, b)) :
    parse (u32Bytes sz ++ id :: payload) =
      fillPayload (sz % 4294967296) id payload rest i b := by
  unfold parse
  rw [readU32_frame, get_msg_id_frame, payloadRegion_frame sz id payload h, hrib]

/-- Unfolding `parse` on a frame with a nonempty payload region whose
first `match` panics. -/
theorem parse_frame_none (sz id : Nat) (payload : List Nat)
    (h : payload ≠ []) (hrib : readIndexBegin id payload = none) :
    parse (u32Bytes sz ++ id :: payload) = none := by
  unfold parse
  rw [readU32_frame, get_msg_id_frame, payloadRegion_frame sz id payload h, hrib]

/-! Round-trip lemmas: parsing the frames the builders produce. -/

/-- Parsing a request/cancel-shaped frame recovers index, begin and
length modulo `2^32`. -/
theorem parse_req_shaped (id : Nat) (hmem : id = 6 ∨ id = 8) (i b l : Nat) :
    parse (u32Bytes 13 ++ id :: (u32Bytes i ++ (u32Bytes b ++ u32Bytes l))) =
      some ⟨13, id, ⟨i % 4294967296, b % 4294967296, some (l % 4294967296),
        none, none, none⟩⟩ := by
  rw [parse_frame_some 13 id _ (u32Bytes l) (i % 4294967296) (b % 4294967296)
    (by simp [u32Bytes]) (readIndexBegin_two_u32 id i b (u32Bytes l) (by omega))]
  unfold fillPayload
  rw [if_neg (by omega), if_neg (by omega), if_neg (by omega), if_pos hmem,
    readU32_u32Bytes]
  rw [show (13 : Nat) % 4294967296 = 13 from rfl]
  rfl

/-- Parsing the frame `build_piece` produces recovers index, begin and the
block. -/
theorem parse_piece_roundtrip (g : GenericPayload) (blk : List Nat)
    (hg : g.block = some blk) :
    (build_piece g).bind parse =
      some ⟨(9 + blk.length) % 4294967296, 7,
        ⟨g.index % 4294967296, g.begin % 4294967296, none, none, some blk, none⟩⟩ := by
  rw [build_piece, hg]
  simp only [Option.map_some', Option.some_bind]
  rw [show u32Bytes (9 + blk.length) ++ [7] ++ u32Bytes g.index ++ u32Bytes g.begin ++ blk
      = u32Bytes (9 + blk.length) ++ 7 :: (u32Bytes g.index ++ (u32Bytes g.begin ++ blk))
    by simp [u32Bytes]]
  rw [parse_frame_some _ 7 _ blk (g.index % 4294967296) (g.begin % 4294967296)
    (by simp [u32Bytes]) (readIndexBegin_two_u32 7 g.index g.begin blk (by omega))]
  unfold fillPayload
  rw [if_neg (by omega), if_neg (by omega), if_neg (by omega), if_neg (by omega),
    if_pos rfl]

/-- Parsing the frame `build_bitfield` produces returns the bits verbatim
when they are nonempty. -/
theorem parse_bitfield_roundtrip (bits : List Nat) (hb : bits ≠ []) :
    parse (build_bitfield bits) =
      some ⟨(bits.length + 1) % 4294967296, 5, ⟨0, 0, none, none, none, some bits⟩⟩ := by
  rw [show build_bitfield bits = u32Bytes (bits.length + 1) ++ 5 :: bits from rfl,
    parse_frame_some _ 5 bits [] 0 0 hb (readIndexBegin_not_mem 5 _ (by omega))]
  rfl

/-- Parsing any `build_have` frame panics: the id-4 arm of the second
`match` in `parse` reads a u32 out of the `rest` buffer, but the first
`match` populates `rest` only for ids 6-9, so `rest` is empty. -/
theorem parse_have_panics (n : Nat) : parse (build_have n) = none := by
  rw [show build_have n = u32Bytes 5 ++ 4 :: u32Bytes n from rfl,
    parse_frame_some 5 4 (u32Bytes n) [] 0 0 (by simp [u32Bytes])
      (readIndexBegin_not_mem 4 _ (by omega))]
  rfl

/-- Parsing any `build_port` frame panics: id 9 is grouped with 6-8 in the
first `match`, whose slice `payload_bytes[8..]` is out of range for the
2-byte port payload. -/
theorem parse_port_panics (p : Nat) : parse (build_port p) = none := by
  rw [show build_port p = u32Bytes 3 ++ 9 :: u16Bytes p from rfl]
  exact parse_frame_none 3 9 (u16Bytes p) (by simp [u16Bytes])
    (readIndexBegin_short 9 _ (by omega) (by simp [u16Bytes]))

/-! Claim C1. -/

/-- C1 (amended): the build/parse round-trip holds for request, piece,
cancel and nonempty bitfields (u32 arguments recovered modulo `2^32`,
cancel's absent length as 0), and for choke/unchoke/interested/
not-interested up to the length field being set to `some 0`; but parsing
the frames built by `build_have` or `build_port` panics, so the round-trip
fails for those kinds, and an empty bitfield comes back as the placeholder
`[0]` rather than verbatim. -/
theorem roundtrip_amended :
    (∀ i b l : Nat, (build_request ⟨i, b, some l⟩).bind parse =
        some ⟨13, 6, ⟨i % 4294967296, b % 4294967296, some (l % 4294967296),
          none, none, none⟩⟩)
    ∧ (∀ g : GenericPayload, ∀ blk : List Nat, g.block = some blk →
        (build_piece g).bind parse =
          some ⟨(9 + blk.length) % 4294967296, 7,
            ⟨g.index % 4294967296, g.begin % 4294967296, none, none, some blk, none⟩⟩)
    ∧ (∀ g : GenericPayload, parse (build_cancel g) =
        some ⟨13, 8, ⟨g.index % 4294967296, g.begin % 4294967296,
          some (g.length.getD 0 % 4294967296), none, none, none⟩⟩)
    ∧ (∀ bits : List Nat, bits ≠ [] → parse (build_bitfield bits) =
        some ⟨(bits.length + 1) % 4294967296, 5, ⟨0, 0, none, none, none, some bits⟩⟩)
    ∧ parse build_choke = some ⟨1, 0, ⟨0, 0, some 0, none, none, none⟩⟩
    ∧ parse build_unchoke = some ⟨1, 1, ⟨0, 0, some 0, none, none, none⟩⟩
    ∧ parse build_interested = some ⟨1, 2, ⟨0, 0, some 0, none, none, none⟩⟩
    ∧ parse build_not_interested = some ⟨1, 3, ⟨0, 0, some 0, none, none, none⟩⟩
    ∧ (∀ n : Nat, parse (build_have n) = none)
    ∧ (∀ p : Nat, parse (build_port p) = none) := by
  refine ⟨?_, parse_piece_roundtrip, ?_, parse_bitfield_roundtrip,
    by decide, by decide, by decide, by decide, parse_have_panics, parse_port_panics⟩
  · intro i b l
    exact parse_req_shaped 6 (Or.inl rfl) i b l
  · intro g
    exact parse_req_shaped 8 (Or.inr rfl) g.index g.begin (g.length.getD 0)

/-- C1 witness: the round-trip statement instantiated at concrete inputs,
with every hypothesis discharged. -/
theorem roundtrip_amended_witness :
    (⟨3, 4, none, none, some [9], none⟩ : GenericPayload).block = some [9]
    ∧ ([255] : List Nat) ≠ []
    ∧ (build_request ⟨1, 2, some 16384⟩).bind parse =
        some ⟨13, 6, ⟨1, 2, some 16384, none, none, none⟩⟩
    ∧ (build_piece ⟨3, 4, none, none, some [9], none⟩).bind parse =
        some ⟨10, 7, ⟨3, 4, none, none, some [9], none⟩⟩
    ∧ parse (build_cancel ⟨5, 6, none, none, none, none⟩) =
        some ⟨13, 8, ⟨5, 6, some 0, none, none, none⟩⟩
    ∧ parse (build_bitfield [255]) = some ⟨2, 5, ⟨0, 0, none, none, none, some [255]⟩⟩
    ∧ parse (build_have 7) = none
    ∧ parse (build_port 1) = none := by
  refine ⟨rfl, by decide, ?_, ?_, ?_, ?_,
    roundtrip_amended.2.2.2.2.2.2.2.2.1 7, roundtrip_amended.2.2.2.2.2.2.2.2.2 1⟩
  · simpa using roundtrip_amended.1 1 2 16384
  · simpa using roundtrip_amended.2.1 ⟨3, 4, none, none, some [9], none⟩ [9] rfl
  · simpa using roundtrip_amended.2.2.1 ⟨5, 6, none, none, none, none⟩
  · simpa using roundtrip_amended.2.2.2.1 [255] (by decide)

/-- C1 counterexample: contrary to the claim, parsing the frame built by
`build_port` does not yield a message with id 9 carrying the port; the
parser panics (modelled as `none`) on every `build_port` frame, because id
9 is grouped with 6-8 and the 2-byte port payload is sliced at `[8..]`. -/
theorem roundtrip_counterexample : parse (build_port 6881) = none := by decide

/-! Claim C3. -/

/-- C3: `build_have 5` is exactly the 9-byte frame `[0,0,0,5,4,0,0,0,5]`
as the claim states, but parsing that frame does not return a message with
id 4 and piece_index 5: the code panics (modelled as `none`), because the
id-4 arm reads a u32 from the `rest` buffer, which the first `match` of
`parse` never populates for id 4. -/
theorem build_have_frame_and_parse_crash :
    build_have 5 = [0, 0, 0, 5, 4, 0, 0, 0, 5] ∧ parse (build_have 5) = none :=
  ⟨by decide, parse_have_panics 5⟩

/-! Totality analysis of `parse`. -/

/-- Unfolding `parse` when the length read succeeds and the first `match`
returns. -/
theorem parse_eq_fill (msg : List Nat) (s : Nat) (rest : List Nat) (i b : Nat)
    (hs : readU32 msg = some s)
    (hrib : readIndexBegin (get_msg_id msg) (payloadRegion msg) = some (rest, i, b)) :
    parse msg = fillPayload s (get_msg_id msg) (payloadRegion msg) rest i b := by
  unfold parse
  rw [hs, hrib]

/-- Unfolding `parse` when the first `match` panics. -/
theorem parse_eq_none_rib (msg : List Nat) (s : Nat)
    (hs : readU32 msg = some s)
    (hrib : readIndexBegin (get_msg_id msg) (payloadRegion msg) = none) :
    parse msg = none := by
  unfold parse
  rw [hs, hrib]

/-- Unfolding `parse` when even the length prefix is missing. -/
theorem parse_eq_none_short (msg : List Nat) (hs : readU32 msg = none) :
    parse msg = none := by
  unfold parse
  rw [hs]

/-- The second `match` of `parse` succeeds unless it must read a u32 from
a too-short `rest` buffer (ids 4, 6 and 8). -/
theorem fillPayload_isSome_iff (size id : Nat) (pb rest : List Nat) (i b : Nat) :
    (fillPayload size id pb rest i b).isSome ↔
      ((id = 4 ∨ id = 6 ∨ id = 8) → 4 ≤ rest.length) := by
  unfold fillPayload
  split_ifs with h1 h2 h3 h4 h5
  · simp only [Option.isSome_some, true_iff]
    omega
  · simp only [Option.isSome_map', readU32_isSome_iff]
    omega
  · simp only [Option.isSome_some, true_iff]
    omega
  · simp only [Option.isSome_map', readU32_isSome_iff]
    omega
  · simp only [Option.isSome_some, true_iff]
    omega
  · simp only [Option.isSome_some, true_iff]
    omega

/-- For ids 6-9 on a payload region of at least 8 bytes, the first `match`
of `parse` returns the tail after the first 8 bytes. -/
theorem readIndexBegin_mem_shape (id : Nat) (pb : List Nat)
    (hmem : id = 6 ∨ id = 7 ∨ id = 8 ∨ id = 9) (hlen : ¬ pb.length < 8) :
    ∃ i b, readIndexBegin id pb = some (pb.drop 8, i, b) := by
  obtain ⟨i, hi⟩ := readU32_eq_some_of_le pb (by omega)
  obtain ⟨b, hb⟩ := readU32_eq_some_of_le (pb.drop 4) (by simp only [List.length_drop]; omega)
  refine ⟨i, b, ?_⟩
  unfold readIndexBegin
  rw [if_pos hmem, if_neg hlen, hi, hb]

/-- Characterization of the inputs on which `parse` returns rather than
panics, for frames long enough for the length-prefix read. -/
theorem parse_isSome_iff (msg : List Nat) (h : 4 ≤ msg.length) :
    (parse msg).isSome ↔
      (¬(get_msg_id msg = 4 ∨ get_msg_id msg = 6 ∨ get_msg_id msg = 7 ∨
          get_msg_id msg = 8 ∨ get_msg_id msg = 9)
       ∨ ((get_msg_id msg = 7 ∨ get_msg_id msg = 9) ∧ 13 ≤ msg.length)
       ∨ ((get_msg_id msg = 6 ∨ get_msg_id msg = 8) ∧ 17 ≤ msg.length)) := by
  obtain ⟨s, hs⟩ := readU32_eq_some_of_le msg h
  have hpl := payloadRegion_length msg
  by_cases hmem : get_msg_id msg = 6 ∨ get_msg_id msg = 7 ∨ get_msg_id msg = 8 ∨
      get_msg_id msg = 9
  · by_cases hlen : (payloadRegion msg).length < 8
    · rw [parse_eq_none_rib msg s hs (readIndexBegin_short _ _ hmem hlen)]
      simp only [Option.isSome_none, Bool.false_eq_true, false_iff]
      split_ifs at hpl <;> omega
    · obtain ⟨i, b, hrib⟩ := readIndexBegin_mem_shape _ _ hmem hlen
      rw [parse_eq_fill msg s _ i b hs hrib, fillPayload_isSome_iff]
      simp only [List.length_drop]
      split_ifs at hpl <;> omega
  · rw [parse_eq_fill msg s [] 0 0 hs (readIndexBegin_not_mem _ _ hmem),
      fillPayload_isSome_iff]
    simp only [List.length_nil]
    omega

/-! Claim C2. -/

/-- C2 counterexample: contrary to the claim that `parse` returns a
message for every frame carrying a 4-byte length prefix, a 5-byte frame
with id 6 (a truncated request) makes the parser panic — the slice
`payload_bytes[8..]` is out of range for the placeholder payload. -/
theorem parse_totality_counterexample : parse [0, 0, 0, 1, 6] = none := by decide

/-- C2 (amended): for every frame of at least 4 bytes, `parse` returns a
message exactly when the frame's id lies outside `{4, 6, 7, 8, 9}`, or is
7 or 9 on a frame of at least 13 bytes, or is 6 or 8 on a frame of at
least 17 bytes; in every other case (in particular on every id-4 frame,
however long) the code panics. The 4-byte zero frame parses to id 0 with
`length = some 0` and all other optional payload fields unset. -/
theorem parse_totality_amended (msg : List Nat) (h : 4 ≤ msg.length) :
    ((parse msg).isSome ↔
      (¬(get_msg_id msg = 4 ∨ get_msg_id msg = 6 ∨ get_msg_id msg = 7 ∨
          get_msg_id msg = 8 ∨ get_msg_id msg = 9)
       ∨ ((get_msg_id msg = 7 ∨ get_msg_id msg = 9) ∧ 13 ≤ msg.length)
       ∨ ((get_msg_id msg = 6 ∨ get_msg_id msg = 8) ∧ 17 ≤ msg.length)))
    ∧ parse [0, 0, 0, 0] = some ⟨0, 0, ⟨0, 0, some 0, none, none, none⟩⟩ :=
  ⟨parse_isSome_iff msg h, by decide⟩

/-- C2 witness: the characterization applied to the concrete 5-byte
bitfield frame `[0,0,0,1,5]`, whose id 5 lies outside the panicking set. -/
theorem parse_totality_witness :
    4 ≤ ([0, 0, 0, 1, 5] : List Nat).length
    ∧ (((parse [0, 0, 0, 1, 5]).isSome ↔
        (¬(get_msg_id [0, 0, 0, 1, 5] = 4 ∨ get_msg_id [0, 0, 0, 1, 5] = 6 ∨
            get_msg_id [0, 0, 0, 1, 5] = 7 ∨ get_msg_id [0, 0, 0, 1, 5] = 8 ∨
            get_msg_id [0, 0, 0, 1, 5] = 9)
         ∨ ((get_msg_id [0, 0, 0, 1, 5] = 7 ∨ get_msg_id [0, 0, 0, 1, 5] = 9) ∧
            13 ≤ ([0, 0, 0, 1, 5] : List Nat).length)
         ∨ ((get_msg_id [0, 0, 0, 1, 5] = 6 ∨ get_msg_id [0, 0, 0, 1, 5] = 8) ∧
            17 ≤ ([0, 0, 0, 1, 5] : List Nat).length)))
      ∧ parse [0, 0, 0, 0] = some ⟨0, 0, ⟨0, 0, some 0, none, none, none⟩⟩) :=
  ⟨by decide, parse_totality_amended [0, 0, 0, 1, 5] (by decide)⟩

/-! Claim C4. -/

/-- Field population of the message produced by the second `match` of
`parse`, as a function of the id. -/
theorem fillPayload_fields (size id : Nat) (pb rest : List Nat) (i b : Nat) (m : Msg)
    (h : fillPayload size id pb rest i b = some m) :
    m.id = id ∧ m.payload.index = i ∧ m.payload.begin = b
    ∧ (m.payload.length.isSome ↔ (id = 0 ∨ id = 1 ∨ id = 2 ∨ id = 3 ∨ id = 6 ∨ id = 8))
    ∧ (m.payload.piece_index.isSome ↔ id = 4)
    ∧ (m.payload.bitfield.isSome ↔ id = 5)
    ∧ (m.payload.block.isSome ↔ id = 7) := by
  unfold fillPayload at h
  split_ifs at h with h1 h2 h3 h4 h5
  · obtain rfl := Option.some.inj h
    refine ⟨rfl, rfl, rfl, ?_, ?_, ?_, ?_⟩ <;> simp <;> omega
  · rcases hr : readU32 rest with _ | v
    · rw [hr] at h
      simp at h
    · rw [hr, Option.map_some'] at h
      obtain rfl := Option.some.inj h
      refine ⟨rfl, rfl, rfl, ?_, ?_, ?_, ?_⟩ <;> simp <;> omega
  · obtain rfl := Option.some.inj h
    refine ⟨rfl, rfl, rfl, ?_, ?_, ?_, ?_⟩ <;> simp <;> omega
  · rcases hr : readU32 rest with _ | v
    · rw [hr] at h
      simp at h
    · rw [hr, Option.map_some'] at h
      obtain rfl := Option.some.inj h
      refine ⟨rfl, rfl, rfl, ?_, ?_, ?_, ?_⟩ <;> simp <;> omega
  · obtain rfl := Option.some.inj h
    refine ⟨rfl, rfl, rfl, ?_, ?_, ?_, ?_⟩ <;> simp <;> omega
  · obtain rfl := Option.some.inj h
    refine ⟨rfl, rfl, rfl, ?_, ?_, ?_, ?_⟩ <;> simp <;> omega

/-- C4 (amended): in every message `parse` returns, the `length` field is
populated exactly for ids 0-3 (with the rest length, 0) and 6 and 8 (with
the request/cancel length); the `bitfield` exactly for id 5; the `block`
exactly for id 7; `piece_index` is never populated, because every id-4
parse panics; and the non-optional `index`/`begin` fields are 0 whenever
the id is outside 6-9. There is no port field for id 9. -/
theorem payload_field_invariant (msg : List Nat) (m : Msg) (h : parse msg = some m) :
    (m.payload.length.isSome ↔
      (m.id = 0 ∨ m.id = 1 ∨ m.id = 2 ∨ m.id = 3 ∨ m.id = 6 ∨ m.id = 8))
    ∧ m.payload.piece_index = none
    ∧ (m.payload.bitfield.isSome ↔ m.id = 5)
    ∧ (m.payload.block.isSome ↔ m.id = 7)
    ∧ (¬(m.id = 6 ∨ m.id = 7 ∨ m.id = 8 ∨ m.id = 9) →
        m.payload.index = 0 ∧ m.payload.begin = 0) := by
  rcases hr : readU32 msg with _ | s
  · rw [parse_eq_none_short msg hr] at h
    exact Option.noConfusion h
  · by_cases hmem : get_msg_id msg = 6 ∨ get_msg_id msg = 7 ∨ get_msg_id msg = 8 ∨
        get_msg_id msg = 9
    · by_cases hlen : (payloadRegion msg).length < 8
      · rw [parse_eq_none_rib msg s hr (readIndexBegin_short _ _ hmem hlen)] at h
        exact Option.noConfusion h
      · obtain ⟨i, b, hrib⟩ := readIndexBegin_mem_shape _ _ hmem hlen
        rw [parse_eq_fill msg s _ i b hr hrib] at h
        obtain ⟨hid, hidx, hbeg, hlenf, hpi, hbf, hblk⟩ :=
          fillPayload_fields _ _ _ _ _ _ _ h
        refine ⟨by rw [hid]; exact hlenf, ?_, by rw [hid]; exact hbf,
          by rw [hid]; exact hblk, ?_⟩
        · refine Option.not_isSome_iff_eq_none.mp ?_
          rw [hpi]
          omega
        · intro hnot
          rw [hid] at hnot
          exact absurd hmem hnot
    · rw [parse_eq_fill msg s [] 0 0 hr (readIndexBegin_not_mem _ _ hmem)] at h
      have hne4 : ¬ get_msg_id msg = 4 := by
        intro h4
        rw [h4] at h
        unfold fillPayload at h
        rw [if_neg (by omega), if_pos rfl] at h
        simp [readU32] at h
      obtain ⟨hid, hidx, hbeg, hlenf, hpi, hbf, hblk⟩ :=
        fillPayload_fields _ _ _ _ _ _ _ h
      refine ⟨by rw [hid]; exact hlenf, ?_, by rw [hid]; exact hbf,
        by rw [hid]; exact hblk, fun _ => ⟨hidx, hbeg⟩⟩
      refine Option.not_isSome_iff_eq_none.mp ?_
      rw [hpi]
      exact hne4

/-- C4 counterexample: the claim says that for ids 0-3 no payload field is
populated, but parsing the frame built by `build_choke` (id 0) yields a
message whose `length` field is populated with `some 0`, not absent. -/
theorem payload_field_counterexample :
    (parse build_choke).map (fun m => (m.id, m.payload.length)) = some (0, some 0)
    ∧ (some 0 : Option Nat) ≠ none := by decide

/-- C4 witness: the invariant applied to the message parsed from a
concrete well-formed request frame. -/
theorem payload_field_witness :
    parse [0, 0, 0, 13, 6, 0, 0, 0, 1, 0, 0, 0, 2, 0, 0, 1, 0] =
      some ⟨13, 6, ⟨1, 2, some 256, none, none, none⟩⟩
    ∧ (((⟨13, 6, ⟨1, 2, some 256, none, none, none⟩⟩ : Msg).payload.length.isSome ↔
        ((⟨13, 6, ⟨1, 2, some 256, none, none, none⟩⟩ : Msg).id = 0 ∨
         (⟨13, 6, ⟨1, 2, some 256, none, none, none⟩⟩ : Msg).id = 1 ∨
         (⟨13, 6, ⟨1, 2, some 256, none, none, none⟩⟩ : Msg).id = 2 ∨
         (⟨13, 6, ⟨1, 2, some 256, none, none, none⟩⟩ : Msg).id = 3 ∨
         (⟨13, 6, ⟨1, 2, some 256, none, none, none⟩⟩ : Msg).id = 6 ∨
         (⟨13, 6, ⟨1, 2, some 256, none, none, none⟩⟩ : Msg).id = 8))
      ∧ (⟨13, 6, ⟨1, 2, some 256, none, none, none⟩⟩ : Msg).payload.piece_index = none
      ∧ ((⟨13, 6, ⟨1, 2, some 256, none, none, none⟩⟩ : Msg).payload.bitfield.isSome ↔
          (⟨13, 6, ⟨1, 2, some 256, none, none, none⟩⟩ : Msg).id = 5)
      ∧ ((⟨13, 6, ⟨1, 2, some 256, none, none, none⟩⟩ : Msg).payload.block.isSome ↔
          (⟨13, 6, ⟨1, 2, some 256, none, none, none⟩⟩ : Msg).id = 7)
      ∧ (¬((⟨13, 6, ⟨1, 2, some 256, none, none, none⟩⟩ : Msg).id = 6 ∨
           (⟨13, 6, ⟨1, 2, some 256, none, none, none⟩⟩ : Msg).id = 7 ∨
           (⟨13, 6, ⟨1, 2, some 256, none, none, none⟩⟩ : Msg).id = 8 ∨
           (⟨13, 6, ⟨1, 2, some 256, none, none, none⟩⟩ : Msg).id = 9) →
          (⟨13, 6, ⟨1, 2, some 256, none, none, none⟩⟩ : Msg).payload.index = 0 ∧
          (⟨13, 6, ⟨1, 2, some 256, none, none, none⟩⟩ : Msg).payload.begin = 0)) :=
  ⟨by decide,
   payload_field_invariant [0, 0, 0, 13, 6, 0, 0, 0, 1, 0, 0, 0, 2, 0, 0, 1, 0]
     ⟨13, 6, ⟨1, 2, some 256, none, none, none⟩⟩ (by decide)⟩

/-! Claim C5. -/

/-- C5: `build_request` produces a 17-byte frame whose 4-byte big-endian
length field is 13, followed by id byte 6, then index, begin and length
each encoded as a big-endian u32 (values reduced modulo `2^32` by the
`as u32` casts), and it fails (panics, modelled as `none`) when the
`length` field of its argument is absent. -/
theorem build_request_layout (i b l : Nat) :
    (build_request ⟨i, b, some l⟩).isSome = true
    ∧ ((build_request ⟨i, b, some l⟩).getD []).length = 17
    ∧ readU32 ((build_request ⟨i, b, some l⟩).getD []) = some 13
    ∧ ((build_request ⟨i, b, some l⟩).getD []).getD 4 0 = 6
    ∧ readU32 (((build_request ⟨i, b, some l⟩).getD []).drop 5) = some (i % 4294967296)
    ∧ readU32 (((build_request ⟨i, b, some l⟩).getD []).drop 9) = some (b % 4294967296)
    ∧ readU32 (((build_request ⟨i, b, some l⟩).getD []).drop 13) = some (l % 4294967296)
    ∧ build_request ⟨i, b, none⟩ = none := by
  refine ⟨rfl, rfl, rfl, rfl, ?_, ?_, ?_, rfl⟩
  · rw [show ((build_request ⟨i, b, some l⟩).getD []).drop 5 =
        u32Bytes i ++ (u32Bytes b ++ u32Bytes l) from rfl]
    exact readU32_u32Bytes_append _ _
  · rw [show ((build_request ⟨i, b, some l⟩).getD []).drop 9 =
        u32Bytes b ++ u32Bytes l from rfl]
    exact readU32_u32Bytes_append _ _
  · rw [show ((build_request ⟨i, b, some l⟩).getD []).drop 13 = u32Bytes l from rfl]
    exact readU32_u32Bytes l

/-- C5 witness: the layout at the spec's example request
`{index: 0, begin: 0, length: 16384}`. -/
theorem build_request_witness :
    (build_request ⟨0, 0, some 16384⟩).isSome = true
    ∧ ((build_request ⟨0, 0, some 16384⟩).getD []).length = 17
    ∧ readU32 ((build_request ⟨0, 0, some 16384⟩).getD []) = some 13
    ∧ ((build_request ⟨0, 0, some 16384⟩).getD []).getD 4 0 = 6
    ∧ readU32 (((build_request ⟨0, 0, some 16384⟩).getD []).drop 5) =
        some (0 % 4294967296)
    ∧ readU32 (((build_request ⟨0, 0, some 16384⟩).getD []).drop 9) =
        some (0 % 4294967296)
    ∧ readU32 (((build_request ⟨0, 0, some 16384⟩).getD []).drop 13) =
        some (16384 % 4294967296)
    ∧ build_request ⟨0, 0, none⟩ = none :=
  build_request_layout 0 0 16384

/-! Claim C7. -/

/-- C7: for a 20-byte info hash and a 20-byte peer id the handshake is
exactly 68 bytes with byte 0 equal to 19, bytes 1-19 the ASCII bytes of
"BitTorrent protocol", bytes 20-27 all zero, bytes 28-47 the info hash and
bytes 48-67 exactly the supplied peer id; there is no length prefix and
the output is a pure function of the two arguments. -/
theorem build_peer_handshake_layout (info_hash peer_id : List Nat)
    (hih : info_hash.length = 20) (hpid : peer_id.length = 20) :
    (build_peer_handshake info_hash peer_id).length = 68
    ∧ (build_peer_handshake info_hash peer_id).getD 0 0 = 19
    ∧ ((build_peer_handshake info_hash peer_id).drop 1).take 19 =
        [66, 105, 116, 84, 111, 114, 114, 101, 110, 116, 32, 112, 114, 111, 116,
         111, 99, 111, 108]
    ∧ ((build_peer_handshake info_hash peer_id).drop 20).take 8 =
        [0, 0, 0, 0, 0, 0, 0, 0]
    ∧ ((build_peer_handshake info_hash peer_id).drop 28).take 20 = info_hash
    ∧ (build_peer_handshake info_hash peer_id).drop 48 = peer_id := by
  have hd28 : (build_peer_handshake info_hash peer_id).drop 28 =
      info_hash ++ peer_id := by
    rw [show build_peer_handshake info_hash peer_id =
        [19, 66, 105, 116, 84, 111, 114, 114, 101, 110, 116, 32, 112, 114, 111,
         116, 111, 99, 111, 108, 0, 0, 0, 0, 0, 0, 0, 0] ++ (info_hash ++ peer_id) by
      simp [build_peer_handshake, u64Bytes, List.append_assoc]]
    rfl
  refine ⟨?_, rfl, rfl, rfl, ?_, ?_⟩
  · rw [show build_peer_handshake info_hash peer_id =
        [19, 66, 105, 116, 84, 111, 114, 114, 101, 110, 116, 32, 112, 114, 111,
         116, 111, 99, 111, 108, 0, 0, 0, 0, 0, 0, 0, 0] ++ (info_hash ++ peer_id) by
      simp [build_peer_handshake, u64Bytes, List.append_assoc]]
    simp [hih, hpid]
  · rw [hd28, ← hih, List.take_left]
  · rw [show (48 : Nat) = 28 + 20 from rfl, ← List.drop_drop, hd28, ← hih,
      List.drop_left]

/-- C7 witness: the handshake layout at concrete 20-byte arguments. -/
theorem build_peer_handshake_witness :
    (List.replicate 20 170).length = 20
    ∧ (List.replicate 20 98).length = 20
    ∧ (build_peer_handshake (List.replicate 20 170) (List.replicate 20 98)).length = 68
    ∧ (build_peer_handshake (List.replicate 20 170) (List.replicate 20 98)).getD 0 0 = 19
    ∧ (build_peer_handshake (List.replicate 20 170) (List.replicate 20 98)).drop 48 =
        List.replicate 20 98 := by
  have h := build_peer_handshake_layout (List.replicate 20 170) (List.replicate 20 98)
    (by decide) (by decide)
  exact ⟨by decide, by decide, h.1, h.2.1, h.2.2.2.2.2⟩

/-! Claim C8. -/

/-- C8: `build_conn_req` returns exactly 16 bytes; bytes 0-7 decode
big-endian to the magic constant `0x41727101980`, bytes 8-11 decode to 0,
and two outputs with different injected transaction ids agree on their
first 12 bytes, so the output varies only in the transaction-id bytes
12-15. -/
theorem build_conn_req_layout (tid : Int) :
    (build_conn_req tid).length = 16
    ∧ readU64 (build_conn_req tid) = some 0x41727101980
    ∧ readU32 ((build_conn_req tid).drop 8) = some 0
    ∧ (∀ tid' : Int, (build_conn_req tid).take 12 = (build_conn_req tid').take 12) := by
  refine ⟨rfl, ?_, ?_, fun tid' => rfl⟩
  · rw [show build_conn_req tid =
        u64Bytes 0x41727101980 ++ (i32Bytes 0 ++ i32Bytes tid) from rfl,
      readU64_u64Bytes_append]
  · rw [show (build_conn_req tid).drop 8 = u32Bytes 0 ++ i32Bytes tid from rfl,
      readU32_u32Bytes_append]

/-- C8 witness: the connect-request layout at two concrete transaction
ids. -/
theorem build_conn_req_witness :
    (build_conn_req 5).length = 16
    ∧ readU64 (build_conn_req 5) = some 0x41727101980
    ∧ readU32 ((build_conn_req 5).drop 8) = some 0
    ∧ (build_conn_req 5).take 12 = (build_conn_req 9).take 12 :=
  ⟨(build_conn_req_layout 5).1, (build_conn_req_layout 5).2.1,
   (build_conn_req_layout 5).2.2.1, (build_conn_req_layout 5).2.2.2 9⟩

/-! Claim C9. -/

/-- C9: `build_cancel` invoked with an absent length succeeds and encodes
0 in the length position of its 17-byte frame (length field 13, id byte
8), while `build_request` with an absent length and `build_piece` with an
absent block both fail (panic, modelled as `none`) instead of substituting
a default. -/
theorem cancel_default_asymmetry (g : GenericPayload) (hg : g.length = none) :
    (build_cancel g).length = 17
    ∧ readU32 (build_cancel g) = some 13
    ∧ (build_cancel g).getD 4 0 = 8
    ∧ readU32 ((build_cancel g).drop 13) = some 0
    ∧ (∀ i b : Nat, build_request ⟨i, b, none⟩ = none)
    ∧ (∀ g2 : GenericPayload, g2.block = none → build_piece g2 = none) := by
  refine ⟨rfl, rfl, rfl, ?_, fun i b => rfl, ?_⟩
  · rw [show (build_cancel g).drop 13 = u32Bytes (g.length.getD 0) from rfl, hg]
    rfl
  · intro g2 hg2
    rw [build_piece, hg2]
    rfl

/-- C9 witness: the asymmetry at concrete payloads with the optional
fields absent. -/
theorem cancel_default_asymmetry_witness :
    (⟨1, 2, none, none, none, none⟩ : GenericPayload).length = none
    ∧ (build_cancel ⟨1, 2, none, none, none, none⟩).length = 17
    ∧ readU32 (build_cancel ⟨1, 2, none, none, none, none⟩) = some 13
    ∧ readU32 ((build_cancel ⟨1, 2, none, none, none, none⟩).drop 13) = some 0
    ∧ build_request ⟨3, 4, none⟩ = none
    ∧ build_piece ⟨5, 6, none, none, none, none⟩ = none :=
  ⟨rfl,
   (cancel_default_asymmetry ⟨1, 2, none, none, none, none⟩ rfl).1,
   (cancel_default_asymmetry ⟨1, 2, none, none, none, none⟩ rfl).2.1,
   (cancel_default_asymmetry ⟨1, 2, none, none, none, none⟩ rfl).2.2.2.1,
   (cancel_default_asymmetry ⟨1, 2, none, none, none, none⟩ rfl).2.2.2.2.1 3 4,
   (cancel_default_asymmetry ⟨1, 2, none, none, none, none⟩ rfl).2.2.2.2.2
     ⟨5, 6, none, none, none, none⟩ rfl⟩

/-! Claim C10. -/

/-- C10: every frame whose id resolves to 5 and whose total length is at
most 5 bytes (so the payload region after the id byte is empty) parses to
a message whose bitfield is the single placeholder byte `[0]` rather than
an empty byte sequence, making it indistinguishable in its payload from
the parse of the one-byte bitfield `[0]` (eight 0-bits) built by
`build_bitfield`. -/
theorem bitfield_placeholder (msg : List Nat) (hlen : msg.length ≤ 5)
    (hid : get_msg_id msg = 5) :
    (parse msg).map (fun m => (m.id, m.payload.bitfield)) = some (5, some [0])
    ∧ (parse (build_bitfield [0])).map (fun m => m.payload) =
      (parse msg).map (fun m => m.payload) := by
  have h4 : 4 < msg.length := by
    by_contra hc
    rw [get_msg_id, if_neg hc] at hid
    exact absurd hid (by decide)
  obtain ⟨s, hs⟩ := readU32_eq_some_of_le msg (by omega)
  have hrib : readIndexBegin (get_msg_id msg) (payloadRegion msg) = some ([], 0, 0) := by
    rw [hid]
    exact readIndexBegin_not_mem 5 _ (by omega)
  have hparse := parse_eq_fill msg s [] 0 0 hs hrib
  rw [hparse, hid, payloadRegion_of_le msg hlen]
  exact ⟨rfl, rfl⟩

/-- C10 witness: the placeholder behaviour at the concrete 5-byte frame
`[0,0,0,0,5]`. -/
theorem bitfield_placeholder_witness :
    ([0, 0, 0, 0, 5] : List Nat).length ≤ 5
    ∧ get_msg_id [0, 0, 0, 0, 5] = 5
    ∧ (parse [0, 0, 0, 0, 5]).map (fun m => (m.id, m.payload.bitfield)) =
        some (5, some [0])
    ∧ (parse (build_bitfield [0])).map (fun m => m.payload) =
        (parse [0, 0, 0, 0, 5]).map (fun m => m.payload) := by
  refine ⟨by decide, by decide, ?_, ?_⟩
  · exact (bitfield_placeholder [0, 0, 0, 0, 5] (by decide) (by decide)).1
  · exact (bitfield_placeholder [0, 0, 0, 0, 5] (by decide) (by decide)).2

/-! Claim C6. -/

/-- C6: given a torrent with a present 20-byte info hash and a present
size, a 20-byte peer id, a connection id and a port, `build_announce_req`
produces exactly 98 bytes laid out as: connection id at offsets 0-7,
action 1 at 8-11, the (injected random) transaction id at 12-15, the info
hash at 16-35, the peer id at 36-55, downloaded 0 at 56-63, the torrent's
size at 64-71, uploaded 0 at 72-79, event 0 at 80-83, ip 0 at 84-87, key 0
at 88-91, num_want -1 (signed, all-ones) at 92-95 and the port at 96-97;
and it fails (panics, modelled as `none`) whenever the torrent's size
field is absent. -/
theorem build_announce_layout (ih pid : List Nat) (sz : Nat) (cid tid port : Int)
    (hih : ih.length = 20) (hpid : pid.length = 20) :
    (build_announce_req ⟨some ih, some sz⟩ cid pid port tid).isSome = true
    ∧ ((build_announce_req ⟨some ih, some sz⟩ cid pid port tid).getD []).length = 98
    ∧ readU64 ((build_announce_req ⟨some ih, some sz⟩ cid pid port tid).getD []) =
        some ((cid % 18446744073709551616).toNat)
    ∧ readU32 (((build_announce_req ⟨some ih, some sz⟩ cid pid port tid).getD []).drop 8) =
        some 1
    ∧ (((build_announce_req ⟨some ih, some sz⟩ cid pid port tid).getD []).drop 12).take 4 =
        i32Bytes tid
    ∧ (((build_announce_req ⟨some ih, some sz⟩ cid pid port tid).getD []).drop 16).take 20 =
        ih
    ∧ (((build_announce_req ⟨some ih, some sz⟩ cid pid port tid).getD []).drop 36).take 20 =
        pid
    ∧ readU64 (((build_announce_req ⟨some ih, some sz⟩ cid pid port tid).getD []).drop 56) =
        some 0
    ∧ readU64 (((build_announce_req ⟨some ih, some sz⟩ cid pid port tid).getD []).drop 64) =
        some (sz % 18446744073709551616)
    ∧ readU64 (((build_announce_req ⟨some ih, some sz⟩ cid pid port tid).getD []).drop 72) =
        some 0
    ∧ readU32 (((build_announce_req ⟨some ih, some sz⟩ cid pid port tid).getD []).drop 80) =
        some 0
    ∧ readU32 (((build_announce_req ⟨some ih, some sz⟩ cid pid port tid).getD []).drop 84) =
        some 0
    ∧ readU32 (((build_announce_req ⟨some ih, some sz⟩ cid pid port tid).getD []).drop 88) =
        some 0
    ∧ (((build_announce_req ⟨some ih, some sz⟩ cid pid port tid).getD []).drop 92).take 4 =
        [255, 255, 255, 255]
    ∧ ((build_announce_req ⟨some ih, some sz⟩ cid pid port tid).getD []).drop 96 =
        i16Bytes port
    ∧ (∀ t : Torrent, t.size = none → build_announce_req t cid pid port tid = none) := by
  set F := (build_announce_req ⟨some ih, some sz⟩ cid pid port tid).getD [] with hFdef
  have hF : F = i64Bytes cid ++ (i32Bytes 1 ++ (i32Bytes tid ++ (ih ++ (pid ++
      (i64Bytes 0 ++ (u64Bytes sz ++ (i64Bytes 0 ++ (i32Bytes 0 ++ (i32Bytes 0 ++
      (i32Bytes 0 ++ (i32Bytes (-1) ++ i16Bytes port))))))))))) := by
    rw [hFdef]
    simp [build_announce_req, List.append_assoc]
  have d8 : F.drop 8 = i32Bytes 1 ++ (i32Bytes tid ++ (ih ++ (pid ++ (i64Bytes 0 ++
      (u64Bytes sz ++ (i64Bytes 0 ++ (i32Bytes 0 ++ (i32Bytes 0 ++ (i32Bytes 0 ++
      (i32Bytes (-1) ++ i16Bytes port)))))))))) := by
    rw [hF]; rfl
  have d12 : F.drop 12 = i32Bytes tid ++ (ih ++ (pid ++ (i64Bytes 0 ++ (u64Bytes sz ++
      (i64Bytes 0 ++ (i32Bytes 0 ++ (i32Bytes 0 ++ (i32Bytes 0 ++
      (i32Bytes (-1) ++ i16Bytes port))))))))) := by
    rw [hF]; rfl
  have d16 : F.drop 16 = ih ++ (pid ++ (i64Bytes 0 ++ (u64Bytes sz ++ (i64Bytes 0 ++
      (i32Bytes 0 ++ (i32Bytes 0 ++ (i32Bytes 0 ++ (i32Bytes (-1) ++ i16Bytes port)))))))) := by
    rw [hF]; rfl
  have d36 : F.drop 36 = pid ++ (i64Bytes 0 ++ (u64Bytes sz ++ (i64Bytes 0 ++
      (i32Bytes 0 ++ (i32Bytes 0 ++ (i32Bytes 0 ++ (i32Bytes (-1) ++ i16Bytes port))))))) := by
    rw [show (36 : Nat) = 16 + 20 from rfl, ← List.drop_drop, d16, ← hih, List.drop_left]
  have d56 : F.drop 56 = i64Bytes 0 ++ (u64Bytes sz ++ (i64Bytes 0 ++ (i32Bytes 0 ++
      (i32Bytes 0 ++ (i32Bytes 0 ++ (i32Bytes (-1) ++ i16Bytes port)))))) := by
    rw [show (56 : Nat) = 36 + 20 from rfl, ← List.drop_drop, d36, ← hpid, List.drop_left]
  have d64 : F.drop 64 = u64Bytes sz ++ (i64Bytes 0 ++ (i32Bytes 0 ++ (i32Bytes 0 ++
      (i32Bytes 0 ++ (i32Bytes (-1) ++ i16Bytes port))))) := by
    rw [show (64 : Nat) = 56 + 8 from rfl, ← List.drop_drop, d56]
    rfl
  have d72 : F.drop 72 = i64Bytes 0 ++ (i32Bytes 0 ++ (i32Bytes 0 ++ (i32Bytes 0 ++
      (i32Bytes (-1) ++ i16Bytes port)))) := by
    rw [show (72 : Nat) = 64 + 8 from rfl, ← List.drop_drop, d64]
    rfl
  have d80 : F.drop 80 = i32Bytes 0 ++ (i32Bytes 0 ++ (i32Bytes 0 ++
      (i32Bytes (-1) ++ i16Bytes port))) := by
    rw [show (80 : Nat) = 72 + 8 from rfl, ← List.drop_drop, d72]
    rfl
  have d84 : F.drop 84 = i32Bytes 0 ++ (i32Bytes 0 ++ (i32Bytes (-1) ++ i16Bytes port)) := by
    rw [show (84 : Nat) = 80 + 4 from rfl, ← List.drop_drop, d80]
    rfl
  have d88 : F.drop 88 = i32Bytes 0 ++ (i32Bytes (-1) ++ i16Bytes port) := by
    rw [show (88 : Nat) = 84 + 4 from rfl, ← List.drop_drop, d84]
    rfl
  have d92 : F.drop 92 = i32Bytes (-1) ++ i16Bytes port := by
    rw [show (92 : Nat) = 88 + 4 from rfl, ← List.drop_drop, d88]
    rfl
  refine ⟨rfl, ?_, ?_, ?_, ?_, ?_, ?_, ?_, ?_, ?_, ?_, ?_, ?_, ?_, ?_, ?_⟩
  · rw [hF]
    simp [List.length_append, i64Bytes, i32Bytes, i16Bytes, u64Bytes, u32Bytes,
      u16Bytes, hih, hpid]
  · rw [hF, show i64Bytes cid = u64Bytes ((cid % 18446744073709551616).toNat) from rfl,
      readU64_u64Bytes_append]
    congr 1
    omega
  · rw [d8, show (i32Bytes 1 : List Nat) = u32Bytes 1 from rfl, readU32_u32Bytes_append]
  · rw [d12, show (4 : Nat) = (i32Bytes tid).length from rfl, List.take_left]
  · rw [d16, ← hih, List.take_left]
  · rw [d36, ← hpid, List.take_left]
  · rw [d56, show (i64Bytes 0 : List Nat) = u64Bytes 0 from rfl, readU64_u64Bytes_append]
  · rw [d64, readU64_u64Bytes_append]
  · rw [d72, show (i64Bytes 0 : List Nat) = u64Bytes 0 from rfl, readU64_u64Bytes_append]
  · rw [d80, show (i32Bytes 0 : List Nat) = u32Bytes 0 from rfl, readU32_u32Bytes_append]
  · rw [d84, show (i32Bytes 0 : List Nat) = u32Bytes 0 from rfl, readU32_u32Bytes_append]
  · rw [d88, show (i32Bytes 0 : List Nat) = u32Bytes 0 from rfl, readU32_u32Bytes_append]
  · rw [d92]
    rfl
  · rw [show (96 : Nat) = 92 + 4 from rfl, ← List.drop_drop, d92]
    rfl
  · intro t ht
    rcases t with ⟨iho, szo⟩
    replace ht : szo = none := ht
    subst ht
    rcases iho with _ | x <;> rfl

/-- C6 witness: the announce layout at the spec's example values (size
1000, connection id 42, port 6881) and the failure on an absent size. -/
theorem build_announce_witness :
    (List.replicate 20 17).length = 20
    ∧ (List.replicate 20 33).length = 20
    ∧ ((build_announce_req ⟨some (List.replicate 20 17), some 1000⟩ 42
        (List.replicate 20 33) 6881 0).getD []).length = 98
    ∧ readU64 (((build_announce_req ⟨some (List.replicate 20 17), some 1000⟩ 42
        (List.replicate 20 33) 6881 0).getD []).drop 64) = some 1000
    ∧ ((build_announce_req ⟨some (List.replicate 20 17), some 1000⟩ 42
        (List.replicate 20 33) 6881 0).getD []).drop 96 = i16Bytes 6881
    ∧ build_announce_req ⟨some (List.replicate 20 17), none⟩ 42
        (List.replicate 20 33) 6881 0 = none := by
  have h := build_announce_layout (List.replicate 20 17) (List.replicate 20 33)
    1000 42 0 6881 (by decide) (by decide)
  refine ⟨by decide, by decide, h.2.1, ?_, ?_, ?_⟩
  · simpa using h.2.2.2.2.2.2.2.2.1
  · exact h.2.2.2.2.2.2.2.2.2.2.2.2.2.2.1
  · exact h.2.2.2.2.2.2.2.2.2.2.2.2.2.2.2 ⟨some (List.replicate 20 17), none⟩ rfl
